import Mathlib

/-!
Shallow embedding of the Ledger repository (Rust) in Lean 4.

Source files embedded: src/transaction.rs, src/entry.rs, src/account.rs,
src/ledger_store.rs, src/lib.rs.

Modelling conventions:
- `rust_decimal::Decimal` (exact fixed-point decimal) is modelled by `Rat`:
  the operations used by the code (+, -, <, ≤, sum, comparison with zero)
  are exact on both.
- `Uuid` and `chrono::DateTime<Utc>` are modelled by `Nat` (only equality of
  ids and ordering of timestamps matter to the code embedded here).
- `Uuid::new_v4()` and `Utc::now()` are nondeterministic generators; the
  embedding takes the generated ids/timestamps as explicit parameters
  (`FreshData`).
- The Postgres store is modelled by an explicit `StoreState` (the rows of the
  `accounts`, `transactions` and `entries` tables); each SQL statement is
  embedded as a pure function of that state. The `?`-propagated
  `sqlx::Error` (connectivity failure) has no analogue in the pure model, so
  store reads are total; the logical error paths (idempotency violation) are
  kept.
- `LedgerService` operations additionally return the list of storage
  accesses they performed, in order, so that ordering claims
  ("before any storage access") are statable.
-/

namespace Ledger

/-- From src/transaction.rs: `enum TransactionType`. -/
inductive TransactionType
  | Credit
  | Debit
  | Transfer
  | Reversal
  | Adjustment
deriving DecidableEq, Repr

/-- From src/entry.rs: `enum EntryType`. -/
inductive EntryType
  | Debit
  | Credit
deriving DecidableEq, Repr

/-- From src/entry.rs: `struct Entry`. -/
structure Entry where
  id : Nat
  transaction_id : Nat
  account_id : Nat
  amount : Rat
  entry_type : EntryType
  timestamp : Nat
  balance_after : Rat
deriving DecidableEq, Repr

/-- From src/entry.rs: `Entry::new`. `Uuid::new_v4()` and `Utc::now()` are
passed explicitly as `id` and `ts`. -/
def Entry.new (id ts : Nat) (transaction_id account_id : Nat) (amount : Rat)
    (entry_type : EntryType) (balance_after : Rat) : Entry :=
  { id := id
    transaction_id := transaction_id
    account_id := account_id
    amount := amount
    entry_type := entry_type
    timestamp := ts
    balance_after := balance_after }

/-- From src/transaction.rs: `struct Transaction`. `metadata` (a JSON value,
set to the empty object by the constructor) is modelled as its text. -/
structure Transaction where
  id : Nat
  transaction_type : TransactionType
  amount : Rat
  source_account_id : Option Nat
  destination_account_id : Option Nat
  timestamp : Nat
  reason_code : String
  entries : List Entry
  metadata : String
  idempotency_key : String
deriving DecidableEq, Repr

/-- From src/transaction.rs: `Transaction::new`. `Uuid::new_v4()` and
`Utc::now()` are passed explicitly as `id` and `ts`. -/
def Transaction.new (id ts : Nat) (transaction_type : TransactionType) (amount : Rat)
    (source_account_id destination_account_id : Option Nat)
    (reason_code idempotency_key : String) : Transaction :=
  { id := id
    transaction_type := transaction_type
    amount := amount
    source_account_id := source_account_id
    destination_account_id := destination_account_id
    timestamp := ts
    reason_code := reason_code
    entries := []
    metadata := "\x7b\x7d"
    idempotency_key := idempotency_key }

/-- From src/transaction.rs: `enum TransactionError`. -/
inductive TransactionError
  | InvalidAmount
  | MissingDestinationAccount
  | MissingSourceAccount
  | MissingAccountForTransfer
  | SameAccountTransfer
  | DuplicateTransaction
deriving DecidableEq, Repr

/-- From src/transaction.rs: `Transaction::validate`. The Rust early returns
become nested conditionals; the `_ => {}` arm (Reversal, Adjustment) falls
through to `Ok(())`. -/
def Transaction.validate (t : Transaction) : Except TransactionError Unit :=
  if t.amount ≤ 0 then Except.error TransactionError.InvalidAmount
  else
    match t.transaction_type with
    | TransactionType.Credit =>
        if t.destination_account_id = none then
          Except.error TransactionError.MissingDestinationAccount
        else Except.ok ()
    | TransactionType.Debit =>
        if t.source_account_id = none then
          Except.error TransactionError.MissingSourceAccount
        else Except.ok ()
    | TransactionType.Transfer =>
        if t.source_account_id = none ∨ t.destination_account_id = none then
          Except.error TransactionError.MissingAccountForTransfer
        else if t.source_account_id = t.destination_account_id then
          Except.error TransactionError.SameAccountTransfer
        else Except.ok ()
    | _ => Except.ok ()

/-- From src/account.rs: `enum AccountType`. -/
inductive AccountType
  | Asset
  | Liability
  | Equity
  | Revenue
  | Expense
deriving DecidableEq, Repr

/-- From src/account.rs: `struct Account` (metadata as its JSON text). -/
structure Account where
  id : Nat
  account_type : AccountType
  currency : String
  created_at : Nat
  metadata : String
deriving DecidableEq, Repr

/-- From src/ledger_store.rs: `enum LedgerError`. -/
inductive LedgerError
  | DatabaseError : String → LedgerError
  | AccountNotFound
  | InsufficientBalance
  | TransactionError : TransactionError → LedgerError
  | IdempotencyViolation
deriving DecidableEq, Repr

/-- The rows of the Postgres tables `accounts`, `transactions`, `entries`
that `PostgresLedgerStore` operates on. Lists are in insertion order. -/
structure StoreState where
  accounts : List Account
  transactions : List Transaction
  entries : List Entry
deriving DecidableEq, Repr

/-- From src/ledger_store.rs, `get_account_balance`: the contribution of one
entry row to the SQL aggregate
`SUM(CASE WHEN entry_type = 'Debit' THEN amount ELSE -amount END)`. -/
def entryBalanceContribution (e : Entry) : Rat :=
  match e.entry_type with
  | EntryType.Debit => e.amount
  | EntryType.Credit => -e.amount

/-- The value of the SQL aggregate in `get_account_balance` over the rows of
`entries` with `account_id = $1` (the `COALESCE(..., 0)` makes the empty sum
zero, which `List.sum` gives directly). -/
def accountBalanceSum (s : StoreState) (account_id : Nat) : Rat :=
  ((s.entries.filter fun e => e.account_id == account_id).map entryBalanceContribution).sum

/-- From src/ledger_store.rs: `PostgresLedgerStore::get_account_balance`.
The SQL aggregate always yields exactly one row, so apart from a connectivity
failure (not modelled) the function always returns `Ok`. -/
def get_account_balance (s : StoreState) (account_id : Nat) : Except LedgerError Rat :=
  Except.ok (accountBalanceSum s account_id)

/-- From src/ledger_store.rs: `PostgresLedgerStore::record_transaction`.
One atomic unit: the idempotency-key uniqueness check, then insertion of the
transaction row and every entry row; on the idempotency hit the Rust returns
early and the open database transaction is rolled back on drop, so the state
is unchanged. -/
def record_transaction (s : StoreState) (t : Transaction) (entries : List Entry) :
    Except LedgerError Unit × StoreState :=
  if s.transactions.any (fun t0 => t0.idempotency_key == t.idempotency_key) then
    (Except.error LedgerError.IdempotencyViolation, s)
  else
    (Except.ok (),
     { s with
        transactions := s.transactions ++ [t]
        entries := s.entries ++ entries })

/-- Descending-timestamp order used by the SQL `ORDER BY t.timestamp DESC`. -/
def txTsDesc (t1 t2 : Transaction) : Prop := t2.timestamp ≤ t1.timestamp

instance : DecidableRel txTsDesc := fun t1 t2 => Nat.decLe t2.timestamp t1.timestamp

instance : IsTotal Transaction txTsDesc :=
  ⟨fun a b => Or.symm (Nat.le_total a.timestamp b.timestamp)⟩

instance : IsTrans Transaction txTsDesc :=
  ⟨fun _ _ _ h1 h2 => Nat.le_trans h2 h1⟩

/-- Ascending-timestamp order used by the SQL `ORDER BY timestamp`. -/
def entryTsAsc (e1 e2 : Entry) : Prop := e1.timestamp ≤ e2.timestamp

instance : DecidableRel entryTsAsc := fun e1 e2 => Nat.decLe e1.timestamp e2.timestamp

instance : IsTotal Entry entryTsAsc :=
  ⟨fun a b => Nat.le_total a.timestamp b.timestamp⟩

instance : IsTrans Entry entryTsAsc :=
  ⟨fun _ _ _ h1 h2 => Nat.le_trans h1 h2⟩

/-- The `JOIN entries e ON t.id = e.transaction_id WHERE e.account_id = $1`
condition of `get_account_transactions`: the transaction has at least one
entry for the account (with `DISTINCT` collapsing duplicate join rows). -/
def hasEntryFor (s : StoreState) (account_id : Nat) (t : Transaction) : Bool :=
  s.entries.any fun e => e.transaction_id == t.id && e.account_id == account_id

/-- From src/ledger_store.rs: `PostgresLedgerStore::get_account_transactions`:
transactions joined to an entry for the account, `ORDER BY t.timestamp DESC`,
then `OFFSET`/`LIMIT`. -/
def get_account_transactions (s : StoreState) (account_id : Nat) (limit offset : Nat) :
    List Transaction :=
  ((((s.transactions.filter (hasEntryFor s account_id)).insertionSort txTsDesc).drop
      offset).take limit)

/-- From src/ledger_store.rs: `PostgresLedgerStore::get_entries_for_transaction`:
entries with `transaction_id = $1`, `ORDER BY timestamp`. -/
def get_entries_for_transaction (s : StoreState) (transaction_id : Nat) : List Entry :=
  (s.entries.filter fun e => e.transaction_id == transaction_id).insertionSort entryTsAsc

/-- One storage access performed by a `LedgerService` operation:
a `get_account_balance` read of one account, or the atomic
`record_transaction` commit. -/
inductive StoreAccess
  | balanceRead : Nat → StoreAccess
  | record : StoreAccess
deriving DecidableEq, Repr

/-- The ids and timestamps that `Uuid::new_v4()` / `Utc::now()` produce during
one `LedgerService` operation: one pair for the transaction, one for each of
up to two entries. -/
structure FreshData where
  txId : Nat
  txTs : Nat
  e1Id : Nat
  e1Ts : Nat
  e2Id : Nat
  e2Ts : Nat
deriving DecidableEq, Repr

namespace LedgerService

/-- From src/lib.rs: `LedgerService::create_credit_entries`. Reads the
destination balance (when a destination is set) and emits one Credit entry
with `balance_after = current_balance + amount`. Returns the entries and the
storage accesses performed. -/
def create_credit_entries (s : StoreState) (g : FreshData) (t : Transaction) :
    List Entry × List StoreAccess :=
  match t.destination_account_id with
  | none => ([], [])
  | some dest_account_id =>
      let current_balance := accountBalanceSum s dest_account_id
      let new_balance := current_balance + t.amount
      ([Entry.new g.e1Id g.e1Ts t.id dest_account_id t.amount EntryType.Credit new_balance],
       [StoreAccess.balanceRead dest_account_id])

/-- From src/lib.rs: `LedgerService::create_transfer_entries`. A Debit entry
at the source with `balance_after = source_balance - amount`, then a Credit
entry at the destination with `balance_after = dest_balance + amount`; each
side is guarded by its own `if let Some(...)`. -/
def create_transfer_entries (s : StoreState) (g : FreshData) (t : Transaction) :
    List Entry × List StoreAccess :=
  let p1 : List Entry × List StoreAccess :=
    match t.source_account_id with
    | none => ([], [])
    | some source_account_id =>
        let source_balance := accountBalanceSum s source_account_id
        let new_source_balance := source_balance - t.amount
        ([Entry.new g.e1Id g.e1Ts t.id source_account_id t.amount EntryType.Debit
            new_source_balance],
         [StoreAccess.balanceRead source_account_id])
  let p2 : List Entry × List StoreAccess :=
    match t.destination_account_id with
    | none => ([], [])
    | some dest_account_id =>
        let dest_balance := accountBalanceSum s dest_account_id
        let new_dest_balance := dest_balance + t.amount
        ([Entry.new g.e2Id g.e2Ts t.id dest_account_id t.amount EntryType.Credit
            new_dest_balance],
         [StoreAccess.balanceRead dest_account_id])
  (p1.1 ++ p2.1, p1.2 ++ p2.2)

/-- From src/lib.rs: `LedgerService::credit_account`: build the transaction,
validate, generate entries, record. Returns the result, the final store
state, and the storage accesses performed, in order. -/
def credit_account (s : StoreState) (g : FreshData) (account_id : Nat) (amount : Rat)
    (reason_code idempotency_key : String) :
    Except LedgerError Transaction × StoreState × List StoreAccess :=
  let transaction := Transaction.new g.txId g.txTs TransactionType.Credit amount none
    (some account_id) reason_code idempotency_key
  match transaction.validate with
  | Except.error e => (Except.error (LedgerError.TransactionError e), s, [])
  | Except.ok _ =>
      let p := create_credit_entries s g transaction
      let q := record_transaction s transaction p.1
      match q.1 with
      | Except.error e => (Except.error e, q.2, p.2 ++ [StoreAccess.record])
      | Except.ok _ => (Except.ok transaction, q.2, p.2 ++ [StoreAccess.record])

/-- From src/lib.rs: `LedgerService::transfer`: read the source balance and
reject with `InsufficientBalance` when it is below the amount, then build the
transaction, validate, generate entries, record. The balance pre-check is the
first statement of the Rust function, before `Transaction::new` and
`validate`. -/
def transfer (s : StoreState) (g : FreshData) (from_account_id to_account_id : Nat)
    (amount : Rat) (reason_code idempotency_key : String) :
    Except LedgerError Transaction × StoreState × List StoreAccess :=
  let source_balance := accountBalanceSum s from_account_id
  if source_balance < amount then
    (Except.error LedgerError.InsufficientBalance, s, [StoreAccess.balanceRead from_account_id])
  else
    let transaction := Transaction.new g.txId g.txTs TransactionType.Transfer amount
      (some from_account_id) (some to_account_id) reason_code idempotency_key
    match transaction.validate with
    | Except.error e =>
        (Except.error (LedgerError.TransactionError e), s,
         [StoreAccess.balanceRead from_account_id])
    | Except.ok _ =>
        let p := create_transfer_entries s g transaction
        let q := record_transaction s transaction p.1
        match q.1 with
        | Except.error e =>
            (Except.error e, q.2,
             StoreAccess.balanceRead from_account_id :: (p.2 ++ [StoreAccess.record]))
        | Except.ok _ =>
            (Except.ok transaction, q.2,
             StoreAccess.balanceRead from_account_id :: (p.2 ++ [StoreAccess.record]))

end LedgerService

/-- Spec-side signed amount of an entry, following the spec's words
"`balance(account) = Σ(Credit.amount) − Σ(Debit.amount)`" and "signed
amounts (Credit positive, Debit negative)". -/
def entrySignedSpec (e : Entry) : Rat :=
  match e.entry_type with
  | EntryType.Credit => e.amount
  | EntryType.Debit => -e.amount

/-- Spec-side balance of an account, following the spec's words: the sum of
Credit entry amounts minus the sum of Debit entry amounts over the account's
entries. -/
def balanceSpec (s : StoreState) (account_id : Nat) : Rat :=
  ((s.entries.filter fun e => e.account_id == account_id).map entrySignedSpec).sum

/-- Concrete example data: the empty store. -/
def sEmpty : StoreState := { accounts := [], transactions := [], entries := [] }

/-- Concrete example data: fresh ids and timestamps for one operation. -/
def gEx : FreshData := { txId := 10, txTs := 1, e1Id := 11, e1Ts := 2, e2Id := 12, e2Ts := 3 }

/-- Concrete example data: a credit transaction carrying idempotency key "dup". -/
def txW1 : Transaction := Transaction.new 1 1 TransactionType.Credit 5 none (some 1) "r" "dup"

/-- Concrete example data: a second credit transaction with the same key "dup". -/
def txW2 : Transaction := Transaction.new 2 2 TransactionType.Credit 5 none (some 1) "r" "dup"

/-- Concrete example data: a valid transfer transaction of amount 7 from
account 0 to account 1. -/
def txT : Transaction := Transaction.new 5 1 TransactionType.Transfer 7 (some 0) (some 1) "r" "kt"

/-- Concrete example data: a valid credit transaction of amount 9 to
account 2. -/
def txC : Transaction := Transaction.new 6 1 TransactionType.Credit 9 none (some 2) "r" "kc"

/-- Concrete example data: an asset account with id 1. -/
def acctW : Account :=
  { id := 1, account_type := AccountType.Asset, currency := "USD", created_at := 0, metadata := "" }

/-- Concrete example data: a Credit entry of 4 for account 1. -/
def entW : Entry := Entry.new 21 5 10 1 4 EntryType.Credit 4

/-- Concrete example data: a store holding account 1 and one entry for it. -/
def sW : StoreState := { accounts := [acctW], transactions := [], entries := [entW] }

/-- C1: the claim states `get_account_balance` returns Σ(Credit) − Σ(Debit).
The code does the opposite: the SQL `CASE WHEN entry_type = 'Debit' THEN
amount ELSE -amount END` sums Debit positive and Credit negative. Crediting
account 1 with 100 on an empty store commits one Credit entry whose
`balance_after` is 100 (the code's own entry generator adds the amount), yet
`get_account_balance` then reports −100, while the Σ(Credit) − Σ(Debit) value
of the claim is +100. -/
theorem get_account_balance_sign_flip :
    ((LedgerService.credit_account sEmpty gEx 1 100 "deposit" "k1").2.1.entries.map
        fun e => e.balance_after) = [100] ∧
    get_account_balance (LedgerService.credit_account sEmpty gEx 1 100 "deposit" "k1").2.1 1 =
      Except.ok (-100) ∧
    balanceSpec (LedgerService.credit_account sEmpty gEx 1 100 "deposit" "k1").2.1 1 = 100 ∧
    (-100 : Rat) ≠ 100 := by
  refine ⟨by with_unfolding_all rfl, by with_unfolding_all rfl, by with_unfolding_all rfl, ?_⟩
  norm_num

/-- C2: `validate` rejects a non-positive amount with `InvalidAmount` first,
for every transaction type; then a Credit without destination with
`MissingDestinationAccount`; a Debit without source with
`MissingSourceAccount`; a Transfer missing either account with
`MissingAccountForTransfer` and one with equal accounts with
`SameAccountTransfer`; Reversal and Adjustment with positive amount validate
`Ok`; and the result depends only on the transaction's own type, amount,
source and destination fields. -/
theorem validate_rules (t : Transaction) :
    (t.amount ≤ 0 → t.validate = Except.error TransactionError.InvalidAmount) ∧
    (0 < t.amount → t.transaction_type = TransactionType.Credit →
      t.validate = if t.destination_account_id = none then
        Except.error TransactionError.MissingDestinationAccount else Except.ok ()) ∧
    (0 < t.amount → t.transaction_type = TransactionType.Debit →
      t.validate = if t.source_account_id = none then
        Except.error TransactionError.MissingSourceAccount else Except.ok ()) ∧
    (0 < t.amount → t.transaction_type = TransactionType.Transfer →
      t.validate = if t.source_account_id = none ∨ t.destination_account_id = none then
        Except.error TransactionError.MissingAccountForTransfer
      else if t.source_account_id = t.destination_account_id then
        Except.error TransactionError.SameAccountTransfer
      else Except.ok ()) ∧
    (0 < t.amount → t.transaction_type = TransactionType.Reversal →
      t.validate = Except.ok ()) ∧
    (0 < t.amount → t.transaction_type = TransactionType.Adjustment →
      t.validate = Except.ok ()) ∧
    (∀ t2 : Transaction, t.transaction_type = t2.transaction_type → t.amount = t2.amount →
      t.source_account_id = t2.source_account_id →
      t.destination_account_id = t2.destination_account_id →
      t.validate = t2.validate) := by
  refine ⟨?_, ?_, ?_, ?_, ?_, ?_, ?_⟩
  · intro h; simp [Transaction.validate, h]
  · intro hpos htype; simp [Transaction.validate, not_le.mpr hpos, htype]
  · intro hpos htype; simp [Transaction.validate, not_le.mpr hpos, htype]
  · intro hpos htype; simp [Transaction.validate, not_le.mpr hpos, htype]
  · intro hpos htype; simp [Transaction.validate, not_le.mpr hpos, htype]
  · intro hpos htype; simp [Transaction.validate, not_le.mpr hpos, htype]
  · intro t2 h1 h2 h3 h4; simp only [Transaction.validate, h1, h2, h3, h4]

/-- Witness for `validate_rules`: a Credit of amount −1 is rejected with
`InvalidAmount`. -/
theorem validate_rules_witness :
    Transaction.validate
      (Transaction.new 1 1 TransactionType.Credit (-1) none (some 1) "r" "k") =
      Except.error TransactionError.InvalidAmount :=
  (validate_rules (Transaction.new 1 1 TransactionType.Credit (-1) none (some 1) "r" "k")).1
    (by norm_num [Transaction.new])

/-- C10: `get_account_balance` has no account-existence check: it never
returns an error (in particular never `AccountNotFound`), and for an account
with no entries — whether or not an account row with that id exists — it
returns `Ok(0)` via `COALESCE(SUM(...), 0)`. -/
theorem get_account_balance_no_missing_account (s : StoreState) (account_id : Nat) :
    (∀ err : LedgerError, get_account_balance s account_id ≠ Except.error err) ∧
    ((∀ e ∈ s.entries, e.account_id ≠ account_id) →
      get_account_balance s account_id = Except.ok 0) := by
  constructor
  · intro err h
    simp [get_account_balance] at h
  · intro h
    have hf : (s.entries.filter fun e => e.account_id == account_id) = [] := by
      rw [List.filter_eq_nil_iff]
      intro e he
      simpa using h e he
    simp [get_account_balance, accountBalanceSum, hf]

/-- Witness for `get_account_balance_no_missing_account`: account id 99 has
no account row and no entries in `sW`, and the balance query returns
`Ok(0)`. -/
theorem get_account_balance_no_missing_account_witness :
    get_account_balance sW 99 = Except.ok 0 :=
  (get_account_balance_no_missing_account sW 99).2 (by decide)

/-- C4: a transfer whose amount exceeds the source balance (as the store
reports it) is rejected with `InsufficientBalance` as the very first step:
the store state is returned unchanged (so no entry rows and no transaction
row are written and both accounts' balances are unchanged) and the only
storage access performed is the one balance read of the source. -/
theorem transfer_insufficient_rejected (s : StoreState) (g : FreshData)
    (from_account_id to_account_id : Nat) (amount : Rat)
    (reason_code idempotency_key : String)
    (h : accountBalanceSum s from_account_id < amount) :
    LedgerService.transfer s g from_account_id to_account_id amount reason_code idempotency_key =
      (Except.error LedgerError.InsufficientBalance, s,
        [StoreAccess.balanceRead from_account_id]) ∧
    (LedgerService.transfer s g from_account_id to_account_id amount reason_code
        idempotency_key).2.1.entries = s.entries ∧
    accountBalanceSum (LedgerService.transfer s g from_account_id to_account_id amount
        reason_code idempotency_key).2.1 from_account_id =
      accountBalanceSum s from_account_id ∧
    accountBalanceSum (LedgerService.transfer s g from_account_id to_account_id amount
        reason_code idempotency_key).2.1 to_account_id =
      accountBalanceSum s to_account_id ∧
    StoreAccess.record ∉ (LedgerService.transfer s g from_account_id to_account_id amount
        reason_code idempotency_key).2.2 := by
  have he : LedgerService.transfer s g from_account_id to_account_id amount reason_code
      idempotency_key =
      (Except.error LedgerError.InsufficientBalance, s,
        [StoreAccess.balanceRead from_account_id]) := by
    simp only [LedgerService.transfer]
    rw [if_pos h]
  refine ⟨he, by rw [he], by rw [he], by rw [he], by rw [he]; simp⟩

/-- Witness for `transfer_insufficient_rejected`: transferring 1 out of the
empty account 0 fails with `InsufficientBalance` and leaves the store
untouched. -/
theorem transfer_insufficient_rejected_witness :
    LedgerService.transfer sEmpty gEx 0 1 1 "r" "kw" =
      (Except.error LedgerError.InsufficientBalance, sEmpty, [StoreAccess.balanceRead 0]) :=
  (transfer_insufficient_rejected sEmpty gEx 0 1 1 "r" "kw"
    (by norm_num [accountBalanceSum, sEmpty])).1

/-- Helper: `record_transaction` aborts with `IdempotencyViolation` and an
unchanged state whenever some stored transaction already carries the
submitted idempotency key. -/
theorem record_transaction_key_dup (s : StoreState) (t : Transaction) (entries : List Entry)
    (t0 : Transaction) (hmem : t0 ∈ s.transactions)
    (hkey : t0.idempotency_key = t.idempotency_key) :
    record_transaction s t entries = (Except.error LedgerError.IdempotencyViolation, s) := by
  unfold record_transaction
  rw [if_pos]
  exact List.any_eq_true.mpr ⟨t0, hmem, by simp [hkey]⟩

/-- Helper: when `record_transaction` succeeds, the new state is the old one
with the transaction row and the entry rows appended. -/
theorem record_transaction_ok_state (s : StoreState) (t : Transaction) (entries : List Entry)
    (hok : (record_transaction s t entries).1 = Except.ok ()) :
    (record_transaction s t entries).2 =
      { s with transactions := s.transactions ++ [t], entries := s.entries ++ entries } := by
  unfold record_transaction at hok ⊢
  by_cases hc : s.transactions.any (fun t0 => t0.idempotency_key == t.idempotency_key) = true
  · rw [if_pos hc] at hok
    simp at hok
  · rw [if_neg hc]

/-- C5: the atomic commit enforces idempotency-key uniqueness: if a stored
transaction already carries the submitted key, `record_transaction` returns
`IdempotencyViolation` and leaves the store exactly as it was; hence after a
successful commit of a transaction, committing any second transaction with
the same key fails with `IdempotencyViolation` and changes nothing, so at
most one transaction and one set of entries is persisted per key. -/
theorem record_transaction_idempotency :
    (∀ (s : StoreState) (t : Transaction) (entries : List Entry) (t0 : Transaction),
      t0 ∈ s.transactions → t0.idempotency_key = t.idempotency_key →
      record_transaction s t entries = (Except.error LedgerError.IdempotencyViolation, s)) ∧
    (∀ (s : StoreState) (t1 : Transaction) (e1 : List Entry) (t2 : Transaction)
        (e2 : List Entry),
      t2.idempotency_key = t1.idempotency_key →
      (record_transaction s t1 e1).1 = Except.ok () →
      record_transaction (record_transaction s t1 e1).2 t2 e2 =
        (Except.error LedgerError.IdempotencyViolation, (record_transaction s t1 e1).2)) := by
  constructor
  · intro s t entries t0 hmem hkey
    exact record_transaction_key_dup s t entries t0 hmem hkey
  · intro s t1 e1 t2 e2 hkey hok
    have hstate := record_transaction_ok_state s t1 e1 hok
    apply record_transaction_key_dup _ _ _ t1 _ hkey.symm
    rw [hstate]
    exact List.mem_append_right _ (List.mem_singleton.mpr rfl)

/-- Witness for `record_transaction_idempotency`: committing `txW1` on the
empty store succeeds, and committing `txW2` (same key "dup") afterwards
returns `IdempotencyViolation` with the state unchanged. -/
theorem record_transaction_idempotency_witness :
    record_transaction (record_transaction sEmpty txW1 []).2 txW2 [] =
      (Except.error LedgerError.IdempotencyViolation, (record_transaction sEmpty txW1 []).2) :=
  record_transaction_idempotency.2 sEmpty txW1 [] txW2 [] (by rfl) (by rfl)

/-- C8: `get_account_transactions` returns transactions of the account (ones
having an entry for it) in descending timestamp order, at most `limit` of
them after skipping `offset`; `get_entries_for_transaction` returns exactly
the transaction's entries in ascending timestamp order. -/
theorem query_result_ordering (s : StoreState)
    (account_id limit offset transaction_id : Nat) :
    List.Sorted txTsDesc (get_account_transactions s account_id limit offset) ∧
    (get_account_transactions s account_id limit offset).length ≤ limit ∧
    (∀ t ∈ get_account_transactions s account_id limit offset,
      t ∈ s.transactions ∧ hasEntryFor s account_id t = true) ∧
    List.Sorted entryTsAsc (get_entries_for_transaction s transaction_id) ∧
    (get_entries_for_transaction s transaction_id).Perm
      (s.entries.filter fun e => e.transaction_id == transaction_id) := by
  have hsub : (get_account_transactions s account_id limit offset).Sublist
      ((s.transactions.filter (hasEntryFor s account_id)).insertionSort txTsDesc) := by
    unfold get_account_transactions
    exact (List.take_sublist _ _).trans (List.drop_sublist _ _)
  refine ⟨?_, ?_, ?_, ?_, ?_⟩
  · exact List.Pairwise.sublist hsub (List.sorted_insertionSort txTsDesc _)
  · exact List.length_take_le _ _
  · intro t ht
    have hmem := hsub.subset ht
    rw [List.mem_insertionSort] at hmem
    exact List.mem_filter.mp hmem
  · exact List.sorted_insertionSort entryTsAsc _
  · exact List.perm_insertionSort entryTsAsc _

/-- Helper: when `record_transaction` fails, the error is exactly
`IdempotencyViolation` and the state is unchanged. -/
theorem record_transaction_error_eq (s : StoreState) (t : Transaction) (entries : List Entry)
    (r : LedgerError) (s2 : StoreState)
    (h : record_transaction s t entries = (Except.error r, s2)) :
    r = LedgerError.IdempotencyViolation ∧ s2 = s := by
  unfold record_transaction at h
  by_cases hc : s.transactions.any (fun t0 => t0.idempotency_key == t.idempotency_key) = true
  · rw [if_pos hc] at h
    injection h with h1 h2
    injection h1 with h1
    exact ⟨h1.symm, h2.symm⟩
  · rw [if_neg hc] at h
    injection h with h1 h2
    exact absurd h1 (by simp)

/-- C3 counterexample: the claim says a ValidationError outcome of `transfer`
is returned before any storage access and that a structurally invalid
transfer never causes a balance read. But `transfer` performs the
insufficient-funds balance read of the source as its first statement, before
`validate`: on the empty store, a transfer of amount 0 (structurally invalid,
`InvalidAmount`) returns the validation error after having read the source
balance. -/
theorem transfer_validation_after_balance_read :
    (LedgerService.transfer sEmpty gEx 0 1 0 "r" "k").1 =
      Except.error (LedgerError.TransactionError TransactionError.InvalidAmount) ∧
    (LedgerService.transfer sEmpty gEx 0 1 0 "r" "k").2.2 = [StoreAccess.balanceRead 0] :=
  ⟨rfl, rfl⟩

/-- C3 amended: `credit_account` detects and returns every ValidationError
before any storage access, leaving the store unchanged with an empty access
trace; `transfer` detects and returns every ValidationError before entry
generation and before any write, but after exactly one storage access — the
insufficient-funds balance read of the source account performed before
validation — leaving the store unchanged. -/
theorem validation_errors_storage_order :
    (∀ (s : StoreState) (g : FreshData) (account_id : Nat) (amount : Rat)
        (reason_code idempotency_key : String) (e : TransactionError),
      (LedgerService.credit_account s g account_id amount reason_code idempotency_key).1 =
        Except.error (LedgerError.TransactionError e) →
      (LedgerService.credit_account s g account_id amount reason_code idempotency_key).2.1 = s ∧
      (LedgerService.credit_account s g account_id amount reason_code idempotency_key).2.2 = []) ∧
    (∀ (s : StoreState) (g : FreshData) (from_account_id to_account_id : Nat) (amount : Rat)
        (reason_code idempotency_key : String) (e : TransactionError),
      (LedgerService.transfer s g from_account_id to_account_id amount reason_code
          idempotency_key).1 = Except.error (LedgerError.TransactionError e) →
      (LedgerService.transfer s g from_account_id to_account_id amount reason_code
          idempotency_key).2.1 = s ∧
      (LedgerService.transfer s g from_account_id to_account_id amount reason_code
          idempotency_key).2.2 = [StoreAccess.balanceRead from_account_id]) := by
  constructor
  · intro s g account_id amount reason_code idempotency_key e h
    simp only [LedgerService.credit_account] at h ⊢
    generalize hv : Transaction.validate (Transaction.new g.txId g.txTs TransactionType.Credit
      amount none (some account_id) reason_code idempotency_key) = v at h ⊢
    cases v with
    | error e0 => exact ⟨rfl, rfl⟩
    | ok u =>
        cases u
        generalize hq : record_transaction s (Transaction.new g.txId g.txTs
          TransactionType.Credit amount none (some account_id) reason_code idempotency_key)
          (LedgerService.create_credit_entries s g (Transaction.new g.txId g.txTs
            TransactionType.Credit amount none (some account_id) reason_code
            idempotency_key)).1 = q at h ⊢
        obtain ⟨r, s2⟩ := q
        cases r with
        | error e1 =>
            obtain ⟨hr, _⟩ := record_transaction_error_eq _ _ _ _ _ hq
            subst hr
            simp at h
        | ok u2 =>
            cases u2
            simp at h
  · intro s g from_account_id to_account_id amount reason_code idempotency_key e h
    simp only [LedgerService.transfer] at h ⊢
    by_cases hb : accountBalanceSum s from_account_id < amount
    · rw [if_pos hb] at h
      simp at h
    · rw [if_neg hb] at h ⊢
      generalize hv : Transaction.validate (Transaction.new g.txId g.txTs
        TransactionType.Transfer amount (some from_account_id) (some to_account_id)
        reason_code idempotency_key) = v at h ⊢
      cases v with
      | error e0 => exact ⟨rfl, rfl⟩
      | ok u =>
          cases u
          generalize hq : record_transaction s (Transaction.new g.txId g.txTs
            TransactionType.Transfer amount (some from_account_id) (some to_account_id)
            reason_code idempotency_key)
            (LedgerService.create_transfer_entries s g (Transaction.new g.txId g.txTs
              TransactionType.Transfer amount (some from_account_id) (some to_account_id)
              reason_code idempotency_key)).1 = q at h ⊢
          obtain ⟨r, s2⟩ := q
          cases r with
          | error e1 =>
              obtain ⟨hr, _⟩ := record_transaction_error_eq _ _ _ _ _ hq
              subst hr
              simp at h
          | ok u2 =>
              cases u2
              simp at h

/-- Witness for `validation_errors_storage_order`: the invalid transfer of
amount 0 on the empty store leaves the state unchanged and its only access is
the source balance read. -/
theorem validation_errors_storage_order_witness :
    (LedgerService.transfer sEmpty gEx 0 1 0 "r" "kx").2.1 = sEmpty ∧
    (LedgerService.transfer sEmpty gEx 0 1 0 "r" "kx").2.2 = [StoreAccess.balanceRead 0] :=
  validation_errors_storage_order.2 sEmpty gEx 0 1 0 "r" "kx"
    TransactionError.InvalidAmount rfl

/-- C6: entry generation for a validated transfer produces exactly two
entries in order — a Debit at the source with `balance_after` equal to the
source's current balance minus the amount, then a Credit at the destination
with `balance_after` equal to the destination's current balance plus the
amount — and the sum of the signed entry amounts (Credit positive, Debit
negative) is zero. -/
theorem create_transfer_entries_two_legs (s : StoreState) (g : FreshData) (t : Transaction)
    (htype : t.transaction_type = TransactionType.Transfer)
    (hval : t.validate = Except.ok ()) :
    ∃ src dest,
      t.source_account_id = some src ∧ t.destination_account_id = some dest ∧ src ≠ dest ∧
      (LedgerService.create_transfer_entries s g t).1 =
        [Entry.new g.e1Id g.e1Ts t.id src t.amount EntryType.Debit
          (accountBalanceSum s src - t.amount),
         Entry.new g.e2Id g.e2Ts t.id dest t.amount EntryType.Credit
          (accountBalanceSum s dest + t.amount)] ∧
      ((LedgerService.create_transfer_entries s g t).1.map entrySignedSpec).sum = 0 := by
  have hne : ¬(t.source_account_id = none ∨ t.destination_account_id = none) ∧
      t.source_account_id ≠ t.destination_account_id := by
    simp only [Transaction.validate, htype] at hval
    split_ifs at hval with h0 h1 h2
    all_goals simp at hval
    exact ⟨h1, h2⟩
  obtain ⟨hno, hd⟩ := hne
  push_neg at hno
  obtain ⟨src, hsrc⟩ := Option.ne_none_iff_exists.mp hno.1
  obtain ⟨dest, hdest⟩ := Option.ne_none_iff_exists.mp hno.2
  refine ⟨src, dest, hsrc.symm, hdest.symm, ?_, ?_, ?_⟩
  · intro hcontra
    exact hd (by rw [← hsrc, ← hdest, hcontra])
  · simp only [LedgerService.create_transfer_entries, ← hsrc, ← hdest]
    rfl
  · simp only [LedgerService.create_transfer_entries, ← hsrc, ← hdest]
    simp [entrySignedSpec, Entry.new]

/-- Witness for `create_transfer_entries_two_legs`: the transfer `txT`
(7 from account 0 to account 1) generates one Debit then one Credit entry
whose signed amounts sum to zero. -/
theorem create_transfer_entries_two_legs_witness :
    ((LedgerService.create_transfer_entries sEmpty gEx txT).1.map fun e => e.entry_type) =
      [EntryType.Debit, EntryType.Credit] ∧
    ((LedgerService.create_transfer_entries sEmpty gEx txT).1.map entrySignedSpec).sum = 0 := by
  obtain ⟨src, dest, h1, h2, h3, h4, h5⟩ :=
    create_transfer_entries_two_legs sEmpty gEx txT rfl (by with_unfolding_all rfl)
  refine ⟨?_, h5⟩
  rw [h4]
  rfl

/-- C7: entry generation for a validated credit produces exactly one Credit
entry at the destination account, of the transaction amount, with
`balance_after` equal to the destination's current balance plus the
amount. -/
theorem create_credit_entries_single (s : StoreState) (g : FreshData) (t : Transaction)
    (htype : t.transaction_type = TransactionType.Credit)
    (hval : t.validate = Except.ok ()) :
    ∃ dest, t.destination_account_id = some dest ∧
      (LedgerService.create_credit_entries s g t).1 =
        [Entry.new g.e1Id g.e1Ts t.id dest t.amount EntryType.Credit
          (accountBalanceSum s dest + t.amount)] := by
  have hd : t.destination_account_id ≠ none := by
    simp only [Transaction.validate, htype] at hval
    split_ifs at hval with h0 h1
    all_goals simp at hval
    exact h1
  obtain ⟨dest, hdest⟩ := Option.ne_none_iff_exists.mp hd
  refine ⟨dest, hdest.symm, ?_⟩
  simp only [LedgerService.create_credit_entries, ← hdest]

/-- Witness for `create_credit_entries_single`: the credit `txC` (9 to
account 2) generates exactly one entry, a Credit. -/
theorem create_credit_entries_single_witness :
    (LedgerService.create_credit_entries sEmpty gEx txC).1.length = 1 ∧
    ((LedgerService.create_credit_entries sEmpty gEx txC).1.map fun e => e.entry_type) =
      [EntryType.Credit] := by
  obtain ⟨dest, h1, h2⟩ :=
    create_credit_entries_single sEmpty gEx txC rfl (by with_unfolding_all rfl)
  rw [h2]
  exact ⟨rfl, rfl⟩

end Ledger
